import Mathlib

/-!
# Verification of the AI-HEAL reminder scheduling core

Shallow embedding of the reminder store, notification dispatcher and
monitor loop of `src/app.py` (class `MedicalVaccineSystem`), together
with proofs of the specified properties.

The persisted store is the SQLite table
`reminders(id PRIMARY KEY AUTOINCREMENT, medicine_name TEXT,
due_datetime TEXT, notified INTEGER DEFAULT 0)`.  We model it as a
`List Reminder` kept in rowid (insertion) order: every SQL statement in
the source is a plain scan of this single table, and a scan without
`ORDER BY` returns rows in rowid order.  `due_datetime` is stored as a
canonical `"YYYY-MM-DD HH:MM:SS"` string; on such strings SQLite's
`datetime(...)` comparison, `ORDER BY due_datetime`, and Python's
`datetime` comparison all agree with lexicographic comparison of the
strings, which we model with the computable `textLeb` below.

Exceptions of the Python code are modelled with `Except PyErr`; every
`try/except` of the source becomes an explicit catch combinator, and
which failures occur is injected through a `NotifyEnv` record of flags.
-/

/-- Lexicographic order on character lists, the model of SQLite's TEXT
comparison (and of comparison of canonical timestamp strings). -/
def textLeb : List Char → List Char → Bool
  | [], _ => true
  | _ :: _, [] => false
  | a :: as, b :: bs =>
    if a.toNat < b.toNat then true
    else if b.toNat < a.toNat then false
    else textLeb as bs

/-- Comparison `a <= b` of two timestamp strings, as performed by
`datetime(due_datetime) <= datetime(?)` in SQL and by `<=` on Python
`datetime` values (identical on the canonical format used throughout). -/
def dateLeb (a b : String) : Bool :=
  textLeb a.data b.data

/-- One row of the `reminders` table. -/
structure Reminder where
  id : Nat
  medicine_name : String
  due_datetime : String
  notified : Bool
deriving DecidableEq, Repr

/-- `mark_reminder_as_notified` (app.py 248-252):
`UPDATE reminders SET notified = 1 WHERE id = ?`, then commit.
A no-op when no row has the id. -/
def mark_reminder_as_notified (st : List Reminder) (reminder_id : Nat) :
    List Reminder :=
  st.map (fun r => if r.id = reminder_id then { r with notified := true } else r)

/-- `delete_reminder` (app.py 332-337):
`DELETE FROM reminders WHERE id = ?`, then commit.
A no-op when no row has the id. -/
def delete_reminder (st : List Reminder) (reminder_id : Nat) : List Reminder :=
  st.filter (fun r => !(r.id == reminder_id))

/-- The fetch of the monitor loop (app.py 228-235):
`SELECT id, medicine_name, due_datetime FROM reminders
 WHERE notified = 0 AND datetime(due_datetime) <= datetime(?)`.
There is no `ORDER BY`: the rows come back in table-scan (rowid)
order, i.e. a filter of the store in its insertion order. -/
def due_unnotified (st : List Reminder) (now : String) : List Reminder :=
  st.filter (fun r => !r.notified && dateLeb r.due_datetime now)

/-- The sequence of reminder ids handed to `notify_user` by one poll
cycle, in the order the fetch returns them (app.py 237-239). -/
def cycle_dispatch_order (st : List Reminder) (now : String) : List Nat :=
  (due_unnotified st now).map Reminder.id

/-- The `ORDER BY due_datetime ASC` relation used by `view_reminders`. -/
def dueLE (a b : Reminder) : Prop :=
  dateLeb a.due_datetime b.due_datetime = true

instance : DecidableRel dueLE := fun a b =>
  inferInstanceAs (Decidable (dateLeb a.due_datetime b.due_datetime = true))

/-- `view_reminders` (app.py 303-313), restricted to the rows it reads:
`SELECT id, medicine_name, due_datetime, notified FROM reminders
 ORDER BY due_datetime ASC`. -/
def view_reminders (st : List Reminder) : List Reminder :=
  List.insertionSort dueLE st

/-- The exceptions the embedded code can raise. -/
inductive PyErr
  | pygameError
  | notifyError
  | threadError
  | sqliteError
deriving DecidableEq, Repr

/-- Which failures occur during one dispatch: `playRaises`,
`notifyRaises`, `stopRaises` are failures of the two notification
channels inside the worker thread; `threadStartRaises` is a failure to
start that thread; `dbRaises` is an SQLite failure of the
`UPDATE ... SET notified = 1`. -/
structure NotifyEnv where
  playRaises : Bool
  notifyRaises : Bool
  stopRaises : Bool
  threadStartRaises : Bool
  dbRaises : Bool
deriving DecidableEq, Repr

/-- The environment in which no failure occurs. -/
def noFailEnv : NotifyEnv :=
  { playRaises := false, notifyRaises := false, stopRaises := false,
    threadStartRaises := false, dbRaises := false }

/-- `try ... except pygame.error: pass` — catches only a pygame error
and replaces the result with the fallback; other errors propagate. -/
def catchPygame (x : Except PyErr α) (fallback : α) : Except PyErr α :=
  match x with
  | .error .pygameError => .ok fallback
  | other => other

/-- `try ... except Exception: <handler>` — catches every error and
replaces the result with the fallback. -/
def catchException (x : Except PyErr α) (fallback : α) : Except PyErr α :=
  match x with
  | .error _ => .ok fallback
  | ok => ok

/-- Observable behaviour of one run of the worker thread body:
whether `play()` was invoked and returned normally, whether the desktop
alert call returned normally, how long the thread held before the stop
branch, and whether the stop branch ran. -/
structure DispatchTrace where
  playStarted : Bool
  notifyShown : Bool
  holdDuration : Nat
  stopCalled : Bool
deriving DecidableEq, Repr

/-- Step 1 of `play_sound_and_notify` (app.py 183-187):
`if self.sound_enabled and os.path.exists(self.sound_file):
   try: pygame.mixer.music.play() except pygame.error: pass`.
Returns whether playback actually started. -/
def attemptPlay (env : NotifyEnv) (sound_enabled file_exists : Bool) :
    Except PyErr Bool :=
  if sound_enabled && file_exists then
    catchPygame
      (if env.playRaises then .error .pygameError else .ok true) false
  else .ok false

/-- Step 2 of `play_sound_and_notify` (app.py 190-198):
`try: notification.notify(...) except Exception as e: st.error(...)`.
Returns whether the desktop alert call returned normally. -/
def attemptNotify (env : NotifyEnv) : Except PyErr Bool :=
  catchException
    (if env.notifyRaises then .error .notifyError else .ok true) false

/-- Step 3 of `play_sound_and_notify` (app.py 201-206):
`if self.sound_enabled: time.sleep(5);
   try: pygame.mixer.music.stop() except pygame.error: pass`.
Returns the hold duration and whether the stop branch ran.  Note the
guard is `sound_enabled` alone, not the guard of step 1. -/
def holdAndStop (env : NotifyEnv) (sound_enabled : Bool) :
    Except PyErr (Nat × Bool) :=
  if sound_enabled then
    match catchPygame
        (if env.stopRaises then .error .pygameError else .ok ()) () with
    | .error e => .error e
    | .ok _ => .ok (5, true)
  else .ok (0, false)

/-- The worker thread body `play_sound_and_notify` (app.py 181-206),
run once per dispatched reminder. -/
def play_sound_and_notify (env : NotifyEnv) (sound_enabled file_exists : Bool) :
    Except PyErr DispatchTrace :=
  match attemptPlay env sound_enabled file_exists with
  | .error e => .error e
  | .ok started =>
    match attemptNotify env with
    | .error e => .error e
    | .ok shown =>
      match holdAndStop env sound_enabled with
      | .error e => .error e
      | .ok hs =>
        .ok { playStarted := started, notifyShown := shown,
              holdDuration := hs.1, stopCalled := hs.2 }

/-- The body of the `try` block of `notify_user` (app.py 179-214):
create and start the worker thread (a Python thread's own exceptions
never propagate to its starter), then `mark_reminder_as_notified`,
then `return True`.  The SQLite `UPDATE` of the mark commits atomically,
so on `dbRaises` the store is unchanged. -/
def notify_user_body (env : NotifyEnv) (st : List Reminder)
    (reminder_id : Nat) : Except PyErr (List Reminder × Bool) :=
  if env.threadStartRaises then .error .threadError
  else if env.dbRaises then .error .sqliteError
  else .ok (mark_reminder_as_notified st reminder_id, true)

/-- `notify_user` (app.py 177-218): the body wrapped in
`try ... except Exception: return False` — on any exception the store
is untouched and the call reports failure. -/
def notify_user (env : NotifyEnv) (st : List Reminder) (reminder_id : Nat) :
    Except PyErr (List Reminder × Bool) :=
  catchException (notify_user_body env st reminder_id) (st, false)

/-- The `for reminder in due_reminders` loop of one cycle of
`monitor_reminders` (app.py 237-239), over an already-fetched list.
If `notify_user` raised, the exception would be caught by the cycle's
`except` clause and the remaining fetched reminders skipped. -/
def monitor_loop_body (env : Nat → NotifyEnv) :
    List Reminder → List Reminder → List Reminder
  | [], st => st
  | r :: rest, st =>
    match notify_user (env r.id) st r.id with
    | .ok s2 => monitor_loop_body env rest s2.1
    | .error _ => st

/-- One iteration of the `while` loop of `monitor_reminders`
(app.py 222-246): fetch the due-and-unnotified rows at the current
time, then call `notify_user` on each in the order fetched. -/
def monitor_cycle (env : Nat → NotifyEnv) (st : List Reminder)
    (now : String) : List Reminder :=
  monitor_loop_body env (due_unnotified st now) st

/-- The 12-hour to 24-hour conversion of the scheduling form
(app.py 283): `hour_24 = (hour % 12) + (12 if period == "PM" else 0)`. -/
def hour_24 (hour : Nat) (period_is_pm : Bool) : Nat :=
  (hour % 12) + (if period_is_pm then 12 else 0)

/-- `reminder_time = dt_time(hour_24, minute)` (app.py 284). -/
def reminder_time (hour minute : Nat) (period_is_pm : Bool) : Nat × Nat :=
  (hour_24 hour period_is_pm, minute)

/-- Modelled from the spec: the intended clock time denoted by a
12-hour reading — 12 AM is hour 0, 12 PM is hour 12, any other AM hour
stays as is, any other PM hour gains 12. -/
def intendedHour24 (hour : Nat) (period_is_pm : Bool) : Nat :=
  if period_is_pm then (if hour = 12 then 12 else hour + 12)
  else (if hour = 12 then 0 else hour)

/-- The submit path of `set_vaccine_reminder` (app.py 277-301):
reject an empty medicine name; reject `reminder_datetime <= now`;
otherwise `INSERT INTO reminders (medicine_name, due_datetime,
notified) VALUES (?, ?, 0)`, whose AUTOINCREMENT key assigns the next
fresh id.  Returns the updated store and the id of the persisted row,
or the untouched store and `none` on the validation error paths. -/
def set_vaccine_reminder (st : List Reminder) (next_id : Nat)
    (medicine_name reminder_datetime now : String) :
    List Reminder × Option Nat :=
  if medicine_name = "" then (st, none)
  else if dateLeb reminder_datetime now then (st, none)
  else
    (st ++ [{ id := next_id, medicine_name := medicine_name,
              due_datetime := reminder_datetime, notified := false }],
     some next_id)

/-- Every mutation of the `reminders` table anywhere in the program:
the poller's mark, the list view's delete, the scheduling form's
insert, and a whole poll cycle. -/
inductive StoreOp
  | mark (reminder_id : Nat)
  | del (reminder_id : Nat)
  | create (next_id : Nat) (medicine_name reminder_datetime now : String)
  | cycle (env : Nat → NotifyEnv) (now : String)

/-- Apply a store operation. -/
def StoreOp.apply (op : StoreOp) (st : List Reminder) : List Reminder :=
  match op with
  | .mark i => mark_reminder_as_notified st i
  | .del i => delete_reminder st i
  | .create nid nm dt now => (set_vaccine_reminder st nid nm dt now).1
  | .cycle env now => monitor_cycle env st now

/-- AUTOINCREMENT never hands out an id twice, so an insert that runs
after a row with id `i` exists carries a different id. -/
def StoreOp.freshFor (op : StoreOp) (i : Nat) : Prop :=
  match op with
  | .create nid _ _ _ => nid ≠ i
  | _ => True

/-- Every row carrying this id (there is at most one, by the primary
key) has its notified flag set. -/
def notifiedAt (st : List Reminder) (i : Nat) : Prop :=
  ∀ r ∈ st, r.id = i → r.notified = true

/-- A failing environment: starting the worker thread raises, so
dispatch reports failure. -/
def failEnv : NotifyEnv :=
  { playRaises := false, notifyRaises := false, stopRaises := false,
    threadStartRaises := true, dbRaises := false }

/-- Concrete store for the C1 counterexample: the row inserted first
(rowid 1) is due later than the row inserted second (rowid 2). -/
def exStore : List Reminder :=
  [{ id := 1, medicine_name := "B", due_datetime := "2024-01-01 10:00:30",
     notified := false },
   { id := 2, medicine_name := "A", due_datetime := "2024-01-01 10:00:00",
     notified := false }]

/-- Concrete single-row store used by witnesses. -/
def oneStore : List Reminder :=
  [{ id := 1, medicine_name := "Aspirin",
     due_datetime := "2024-01-02 10:00:00", notified := false }]

/-! ## Order lemmas for the text comparison -/

theorem textLeb_total : ∀ a b : List Char, textLeb a b = true ∨ textLeb b a = true
  | [], _ => Or.inl rfl
  | _ :: _, [] => Or.inr rfl
  | x :: xs, y :: ys => by
    rcases Nat.lt_trichotomy x.toNat y.toNat with h | h | h
    · left
      simp [textLeb, h]
    · rcases textLeb_total xs ys with ih | ih
      · left
        simp [textLeb, h, ih]
      · right
        simp [textLeb, h.symm, ih]
    · right
      simp [textLeb, h]

theorem textLeb_trans : ∀ a b c : List Char,
    textLeb a b = true → textLeb b c = true → textLeb a c = true
  | [], _, _, _, _ => rfl
  | _ :: _, [], _, h1, _ => by simp [textLeb] at h1
  | _ :: _, _ :: _, [], _, h2 => by simp [textLeb] at h2
  | x :: xs, y :: ys, z :: zs, h1, h2 => by
    simp only [textLeb] at h1 h2 ⊢
    split_ifs at h1 h2 ⊢ <;>
      first
        | rfl
        | omega
        | exact textLeb_trans xs ys zs h1 h2

instance : IsTotal Reminder dueLE :=
  ⟨fun a b => textLeb_total a.due_datetime.data b.due_datetime.data⟩

instance : IsTrans Reminder dueLE :=
  ⟨fun _ _ _ hab hbc => textLeb_trans _ _ _ hab hbc⟩

/-! ## Characterizations of the dispatcher and the loop step -/

theorem play_sound_and_notify_eq (env : NotifyEnv) (se fe : Bool) :
    play_sound_and_notify env se fe =
      Except.ok { playStarted := se && fe && !env.playRaises,
                  notifyShown := !env.notifyRaises,
                  holdDuration := if se then 5 else 0,
                  stopCalled := se } := by
  obtain ⟨p, n, s, t, d⟩ := env
  cases se <;> cases fe <;> cases p <;> cases n <;> cases s <;> rfl

theorem notify_user_eq (env : NotifyEnv) (st : List Reminder) (rid : Nat) :
    notify_user env st rid =
      if env.threadStartRaises || env.dbRaises then Except.ok (st, false)
      else Except.ok (mark_reminder_as_notified st rid, true) := by
  obtain ⟨p, n, s, t, d⟩ := env
  cases t <;> cases d <;> rfl

theorem monitor_loop_body_cons (env : Nat → NotifyEnv) (r : Reminder)
    (rest st : List Reminder) :
    monitor_loop_body env (r :: rest) st =
      if (env r.id).threadStartRaises || (env r.id).dbRaises then
        monitor_loop_body env rest st
      else
        monitor_loop_body env rest (mark_reminder_as_notified st r.id) := by
  simp only [monitor_loop_body]
  rw [notify_user_eq]
  split_ifs <;> rfl

/-! ## Preservation lemmas for the notified flag -/

theorem notifiedAt_mark_self (st : List Reminder) (i : Nat) :
    notifiedAt (mark_reminder_as_notified st i) i := by
  intro r hr hid
  simp only [mark_reminder_as_notified, List.mem_map] at hr
  obtain ⟨r0, _, rfl⟩ := hr
  by_cases h : r0.id = i
  · simp [h]
  · simp only [if_neg h] at hid ⊢
    exact absurd hid h

theorem notifiedAt_mark (st : List Reminder) (i j : Nat)
    (h : notifiedAt st i) : notifiedAt (mark_reminder_as_notified st j) i := by
  intro r hr hid
  simp only [mark_reminder_as_notified, List.mem_map] at hr
  obtain ⟨r0, hr0, rfl⟩ := hr
  by_cases hj : r0.id = j
  · simp [hj]
  · simp only [if_neg hj] at hid ⊢
    exact h r0 hr0 hid

theorem notifiedAt_delete (st : List Reminder) (i j : Nat)
    (h : notifiedAt st i) : notifiedAt (delete_reminder st j) i :=
  fun r hr hid => h r (List.mem_of_mem_filter hr) hid

theorem notifiedAt_create (st : List Reminder) (i nid : Nat)
    (nm dt now : String) (hfresh : nid ≠ i) (h : notifiedAt st i) :
    notifiedAt (set_vaccine_reminder st nid nm dt now).1 i := by
  unfold set_vaccine_reminder
  split_ifs
  · exact h
  · exact h
  · intro r hr hid
    rcases List.mem_append.mp hr with hr | hr
    · exact h r hr hid
    · simp only [List.mem_singleton] at hr
      subst hr
      exact absurd hid hfresh

theorem notifiedAt_loop (env : Nat → NotifyEnv) (i : Nat) :
    ∀ (l st : List Reminder), notifiedAt st i →
      notifiedAt (monitor_loop_body env l st) i
  | [], _, h => h
  | r :: rest, st, h => by
    rw [monitor_loop_body_cons]
    split_ifs
    · exact notifiedAt_loop env i rest st h
    · exact notifiedAt_loop env i rest _ (notifiedAt_mark st i r.id h)

theorem notifiedAt_cycle (env : Nat → NotifyEnv) (st : List Reminder)
    (now : String) (i : Nat) (h : notifiedAt st i) :
    notifiedAt (monitor_cycle env st now) i :=
  notifiedAt_loop env i (due_unnotified st now) st h

theorem notifiedAt_loop_sets (i : Nat) :
    ∀ (l st : List Reminder), i ∈ l.map Reminder.id →
      notifiedAt (monitor_loop_body (fun _ => noFailEnv) l st) i
  | [], _, h => absurd h (by simp)
  | r :: rest, st, h => by
    rw [monitor_loop_body_cons]
    simp only [noFailEnv, Bool.or_self, if_neg Bool.false_ne_true]
    rcases List.mem_map.mp h with ⟨r0, hr0, hid⟩
    rcases List.mem_cons.mp hr0 with rfl | hmem
    · subst hid
      exact notifiedAt_loop _ r0.id rest _ (notifiedAt_mark_self st r0.id)
    · exact notifiedAt_loop_sets i rest _
        (List.mem_map.mpr ⟨r0, hmem, hid⟩)

theorem notifiedAt_op (op : StoreOp) (st : List Reminder) (i : Nat)
    (hf : op.freshFor i) (h : notifiedAt st i) : notifiedAt (op.apply st) i := by
  cases op with
  | mark j => exact notifiedAt_mark st i j h
  | del j => exact notifiedAt_delete st i j h
  | create nid nm dt now => exact notifiedAt_create st i nid nm dt now hf h
  | cycle env now => exact notifiedAt_cycle env st now i h

theorem notifiedAt_ops (i : Nat) :
    ∀ (ops : List StoreOp) (st : List Reminder),
      (∀ op ∈ ops, op.freshFor i) → notifiedAt st i →
      notifiedAt (ops.foldl (fun s op => op.apply s) st) i
  | [], _, _, h => h
  | op :: rest, st, hf, h =>
    notifiedAt_ops i rest (op.apply st)
      (fun o ho => hf o (List.mem_cons_of_mem op ho))
      (notifiedAt_op op st i (hf op (List.mem_cons_self op rest)) h)

theorem not_mem_dispatch_of_notified (st : List Reminder) (i : Nat)
    (now : String) (h : notifiedAt st i) :
    i ∉ cycle_dispatch_order st now := by
  intro hmem
  rcases List.mem_map.mp hmem with ⟨r, hr, hid⟩
  have hpred := (List.mem_filter.mp hr).2
  have hmem0 := (List.mem_filter.mp hr).1
  simp only [Bool.and_eq_true, Bool.not_eq_true'] at hpred
  have := h r hmem0 hid
  rw [this] at hpred
  exact absurd hpred.1 (by simp)

/-! ## Helper lemmas for absent ids -/

theorem mark_eq_self_of_absent : ∀ (st : List Reminder) (i : Nat),
    (∀ r ∈ st, r.id ≠ i) → mark_reminder_as_notified st i = st
  | [], _, _ => rfl
  | a :: l, i, h => by
    have ht := mark_eq_self_of_absent l i
      (fun r hr => h r (List.mem_cons_of_mem a hr))
    have ha := h a (List.mem_cons_self a l)
    unfold mark_reminder_as_notified at ht ⊢
    simp only [List.map_cons, if_neg ha, ht]

theorem delete_eq_self_of_absent : ∀ (st : List Reminder) (i : Nat),
    (∀ r ∈ st, r.id ≠ i) → delete_reminder st i = st
  | [], _, _ => rfl
  | a :: l, i, h => by
    have ht := delete_eq_self_of_absent l i
      (fun r hr => h r (List.mem_cons_of_mem a hr))
    have ha := h a (List.mem_cons_self a l)
    unfold delete_reminder at ht ⊢
    simp only [List.filter_cons, ht]
    simp [ha]

theorem not_id_mem_delete (st : List Reminder) (i : Nat) :
    ∀ r ∈ delete_reminder st i, r.id ≠ i := by
  intro r hr
  have h2 := (List.mem_filter.mp hr).2
  simpa using h2

/-! ## The claims -/

/-- C4: dispatch never raises an exception to its caller, the poll
loop, for every combination of audio-channel and desktop-channel
failure (including both channels failing): the worker thread body
`play_sound_and_notify` always returns normally, and `notify_user`
always returns a Boolean result instead of propagating an exception. -/
theorem C4_dispatch_never_raises (env : NotifyEnv) (se fe : Bool)
    (st : List Reminder) (rid : Nat) :
    (∃ tr, play_sound_and_notify env se fe = Except.ok tr) ∧
    (∃ res, notify_user env st rid = Except.ok res) := by
  refine ⟨⟨_, play_sound_and_notify_eq env se fe⟩, ?_⟩
  rw [notify_user_eq]
  split_ifs <;> exact ⟨_, rfl⟩

/-- C5: reminder creation with an empty medicine name, or with a due
timestamp less than or equal to the current time, fails validation and
leaves the store unchanged (no row is persisted). -/
theorem C5_validation_rejects (st : List Reminder) (next_id : Nat)
    (name due now : String)
    (h : name = "" ∨ dateLeb due now = true) :
    set_vaccine_reminder st next_id name due now = (st, none) := by
  unfold set_vaccine_reminder
  rcases h with h | h
  · rw [if_pos h]
  · by_cases hn : name = ""
    · rw [if_pos hn]
    · rw [if_neg hn, if_pos h]

/-- C5 witness: creating "Vitamin D" with a due time one minute in the
past is rejected and the store is unchanged. -/
theorem C5_witness :
    ("Vitamin D" = "" ∨
      dateLeb "2024-01-01 09:59:00" "2024-01-01 10:00:00" = true) ∧
    set_vaccine_reminder oneStore 2 "Vitamin D" "2024-01-01 09:59:00"
      "2024-01-01 10:00:00" = (oneStore, none) :=
  ⟨Or.inr (by decide),
   C5_validation_rejects oneStore 2 "Vitamin D" "2024-01-01 09:59:00"
     "2024-01-01 10:00:00" (Or.inr (by decide))⟩

/-- C6: for every reminder with a non-empty name and a due timestamp
strictly in the future at creation time, create succeeds and the newly
persisted row has its notified flag false. -/
theorem C6_create_future_succeeds (st : List Reminder) (next_id : Nat)
    (name due now : String) (hname : name ≠ "")
    (hfuture : dateLeb due now = false) :
    set_vaccine_reminder st next_id name due now =
      (st ++ [{ id := next_id, medicine_name := name, due_datetime := due,
                notified := false }], some next_id) := by
  unfold set_vaccine_reminder
  rw [if_neg hname, if_neg (by simp [hfuture])]

/-- C6 witness: creating "Aspirin" one day ahead on the empty store
persists exactly one unnotified row. -/
theorem C6_witness :
    ("Aspirin" ≠ "" ∧
      dateLeb "2024-01-02 10:00:00" "2024-01-01 10:00:00" = false) ∧
    set_vaccine_reminder [] 1 "Aspirin" "2024-01-02 10:00:00"
      "2024-01-01 10:00:00" =
      ([{ id := 1, medicine_name := "Aspirin",
          due_datetime := "2024-01-02 10:00:00", notified := false }],
       some 1) :=
  ⟨⟨by decide, by decide⟩,
   C6_create_future_succeeds [] 1 "Aspirin" "2024-01-02 10:00:00"
     "2024-01-01 10:00:00" (by decide) (by decide)⟩

/-- C7: listing reminders always returns them in non-decreasing
due_datetime order, for every store state, and the result is a
permutation of the store, so the insertion order is irrelevant. -/
theorem C7_view_sorted (st : List Reminder) :
    List.Pairwise dueLE (view_reminders st) ∧
    List.Perm (view_reminders st) st :=
  ⟨List.sorted_insertionSort dueLE st, List.perm_insertionSort dueLE st⟩

/-- C8: delete followed by mark_notified of the same id is a no-op
leaving the store unchanged, deleting again is also a no-op, and on any
store with the id absent both operations return the store untouched
(they are total functions, so neither raises). -/
theorem C8_delete_then_mark_noop (st : List Reminder) (i : Nat) :
    mark_reminder_as_notified (delete_reminder st i) i
      = delete_reminder st i ∧
    delete_reminder (delete_reminder st i) i = delete_reminder st i ∧
    (∀ st2 : List Reminder, (∀ r ∈ st2, r.id ≠ i) →
      mark_reminder_as_notified st2 i = st2 ∧ delete_reminder st2 i = st2) :=
  ⟨mark_eq_self_of_absent _ i (not_id_mem_delete st i),
   delete_eq_self_of_absent _ i (not_id_mem_delete st i),
   fun st2 h =>
     ⟨mark_eq_self_of_absent st2 i h, delete_eq_self_of_absent st2 i h⟩⟩

/-- C8 witness: on the one-row store, delete id 1 then mark id 1 and
delete id 1 again are all no-ops, and on the empty store (id absent)
both operations are no-ops. -/
theorem C8_witness :
    mark_reminder_as_notified (delete_reminder oneStore 1) 1
      = delete_reminder oneStore 1 ∧
    delete_reminder (delete_reminder oneStore 1) 1
      = delete_reminder oneStore 1 ∧
    mark_reminder_as_notified [] 1 = [] ∧
    delete_reminder [] 1 = [] :=
  ⟨(C8_delete_then_mark_noop oneStore 1).1,
   (C8_delete_then_mark_noop oneStore 1).2.1,
   ((C8_delete_then_mark_noop oneStore 1).2.2 [] (by decide)).1,
   ((C8_delete_then_mark_noop oneStore 1).2.2 [] (by decide)).2⟩

/-- C10: the scheduling form's 12-hour conversion is correct for every
hour 1..12, minute 0..59 and period: the computed 24-hour value lies in
0..23, equals the intended clock hour (12 AM maps to 0, 12 PM to 12),
and the minute passes through unchanged. -/
theorem C10_hour_conversion (hour minute : Nat) (pm : Bool)
    (h1 : 1 ≤ hour) (h2 : hour ≤ 12) (h3 : minute ≤ 59) :
    hour_24 hour pm ≤ 23 ∧
    hour_24 hour pm = intendedHour24 hour pm ∧
    reminder_time hour minute pm = (intendedHour24 hour pm, minute) ∧
    (reminder_time hour minute pm).2 ≤ 59 ∧
    hour_24 12 false = 0 ∧ hour_24 12 true = 12 := by
  have heq : hour_24 hour pm = intendedHour24 hour pm := by
    cases pm <;> simp only [hour_24, intendedHour24] <;> split_ifs <;> omega
  refine ⟨?_, heq, ?_, h3, rfl, rfl⟩
  · cases pm <;> simp only [hour_24] <;> split_ifs <;> omega
  · simp only [reminder_time, heq]

/-- C10 witness at 12:30 PM: the conversion yields hour 12. -/
theorem C10_witness :
    hour_24 12 true ≤ 23 ∧
    hour_24 12 true = intendedHour24 12 true ∧
    reminder_time 12 30 true = (intendedHour24 12 true, 30) ∧
    (reminder_time 12 30 true).2 ≤ 59 ∧
    hour_24 12 false = 0 ∧ hour_24 12 true = 12 :=
  C10_hour_conversion 12 30 true (by decide) (by decide) (by decide)

/-- C1 counterexample: the claim that due reminders are dispatched in
ascending due-time order is false on the code — the fetch has no
ORDER BY.  In `exStore` both rows are due at the poll time, the row
with id 2 has the strictly earlier due_datetime, yet the dispatch
order is id 1 first. -/
theorem C1_counterexample :
    due_unnotified exStore "2024-01-01 10:01:00" = exStore ∧
    cycle_dispatch_order exStore "2024-01-01 10:01:00" = [1, 2] ∧
    dateLeb "2024-01-01 10:00:00" "2024-01-01 10:00:30" = true ∧
    dateLeb "2024-01-01 10:00:30" "2024-01-01 10:00:00" = false ∧
    ¬ List.Pairwise dueLE (due_unnotified exStore "2024-01-01 10:01:00") := by
  refine ⟨by decide, by decide, by decide, by decide, ?_⟩
  intro h
  have h2 := List.rel_of_pairwise_cons h
    (List.mem_singleton.mpr rfl)
  exact absurd h2 (by decide)

/-- C1 (amended): within one poll cycle the due-and-unnotified
reminders are dispatched in the order the fetch returns them, which is
the store's rowid (insertion) order: the fetched list is a sublist of
the store in its stored order, and the dispatch sequence is exactly its
ids — not necessarily ascending due-time order. -/
theorem C1_amended_dispatch_in_store_order (st : List Reminder)
    (now : String) :
    List.Sublist (due_unnotified st now) st ∧
    cycle_dispatch_order st now = (due_unnotified st now).map Reminder.id :=
  ⟨List.filter_sublist st, rfl⟩

/-- C2: for each due reminder processed in a poll cycle, the notified
flag is written exactly when the dispatcher reports success: when
`notify_user` returns true the store is the marked store, and when it
returns false the store is untouched, so a reminder that was in the
dispatch list of a cycle at some poll time is still in it at that time
on the next cycle. -/
theorem C2_mark_iff_success (env : NotifyEnv) (st : List Reminder)
    (rid : Nat) (st2 : List Reminder) (ok : Bool)
    (h : notify_user env st rid = Except.ok (st2, ok)) :
    (ok = true → st2 = mark_reminder_as_notified st rid) ∧
    (ok = false → st2 = st ∧
      ∀ now, rid ∈ cycle_dispatch_order st now →
        rid ∈ cycle_dispatch_order st2 now) := by
  rw [notify_user_eq] at h
  split_ifs at h <;> injection h with h <;> injection h with hst hok <;>
    subst hst <;> subst hok
  · exact ⟨fun hc => absurd hc (by simp), fun _ => ⟨rfl, fun _ hm => hm⟩⟩
  · exact ⟨fun _ => rfl, fun hc => absurd hc (by simp)⟩

/-- C2 witness: a dispatch whose worker thread fails to start reports
failure and leaves the one-row store untouched. -/
theorem C2_witness :
    notify_user failEnv oneStore 1 = Except.ok (oneStore, false) ∧
    (false = true → oneStore = mark_reminder_as_notified oneStore 1) ∧
    (false = false → oneStore = oneStore ∧
      ∀ now, 1 ∈ cycle_dispatch_order oneStore now →
        1 ∈ cycle_dispatch_order oneStore now) :=
  ⟨rfl, (C2_mark_iff_success failEnv oneStore 1 oneStore false rfl).1,
   (C2_mark_iff_success failEnv oneStore 1 oneStore false rfl).2⟩

/-- C9 counterexample: the claim that the fixed 5-unit hold and the
stop happen if and only if audio playback was started is false on the
code — with the audio subsystem enabled but the cue file missing, no
playback is started yet the dispatcher still holds 5 time units and
calls stop, because the hold branch is guarded by `sound_enabled`
alone. -/
theorem C9_counterexample :
    play_sound_and_notify noFailEnv true false =
      Except.ok { playStarted := false, notifyShown := true,
                  holdDuration := 5, stopCalled := true } := rfl

/-- C9 (amended): the dispatcher holds 5 time units and then stops
playback if and only if the audio subsystem is enabled, regardless of
whether playback actually started; in particular whenever playback
started the hold and stop follow, and when the subsystem is
unavailable there is no hold and no stop. -/
theorem C9_amended_hold_iff_sound_enabled (env : NotifyEnv) (se fe : Bool)
    (tr : DispatchTrace) (h : play_sound_and_notify env se fe = Except.ok tr) :
    ((tr.holdDuration = 5 ∧ tr.stopCalled = true) ↔ se = true) ∧
    (tr.playStarted = true → tr.holdDuration = 5 ∧ tr.stopCalled = true) ∧
    (se = false → tr.holdDuration = 0 ∧ tr.stopCalled = false) := by
  rw [play_sound_and_notify_eq] at h
  injection h with h
  subst h
  cases se <;> simp

/-- C9 witness: with audio enabled, cue present and no failures,
playback starts and the 5-unit hold and stop follow. -/
theorem C9_witness :
    (((5 : Nat) = 5 ∧ true = true) ↔ true = true) ∧
    (true = true → (5 : Nat) = 5 ∧ true = true) ∧
    (true = false → (5 : Nat) = 0 ∧ true = false) :=
  C9_amended_hold_iff_sound_enabled noFailEnv true true
    { playStarted := true, notifyShown := true, holdDuration := 5,
      stopCalled := true } rfl

/-- C3: for a reminder that is unnotified and due at the poll time, one
failure-free poll cycle sets its notified flag; the reminder occurs
exactly once in that cycle's dispatch sequence (by the primary-key
uniqueness of ids); the flag then stays true under every subsequent
store operation (mark, delete, create with its never-reused fresh id,
or a whole further cycle); and a later poll cycle does not dispatch the
reminder again. -/
theorem C3_notified_exactly_once (st : List Reminder) (r : Reminder)
    (now now2 : String) (hmem : r ∈ st) (hun : r.notified = false)
    (hdue : dateLeb r.due_datetime now = true)
    (hnodup : (st.map Reminder.id).Nodup) :
    notifiedAt (monitor_cycle (fun _ => noFailEnv) st now) r.id ∧
    (cycle_dispatch_order st now).count r.id = 1 ∧
    (∀ ops : List StoreOp, (∀ op ∈ ops, op.freshFor r.id) →
      notifiedAt (ops.foldl (fun s op => op.apply s)
        (monitor_cycle (fun _ => noFailEnv) st now)) r.id) ∧
    r.id ∉ cycle_dispatch_order
        (monitor_cycle (fun _ => noFailEnv) st now) now2 := by
  have hmemdue : r ∈ due_unnotified st now :=
    List.mem_filter.mpr ⟨hmem, by simp [hun, hdue]⟩
  have hmemid : r.id ∈ (due_unnotified st now).map Reminder.id :=
    List.mem_map.mpr ⟨r, hmemdue, rfl⟩
  have hset : notifiedAt (monitor_cycle (fun _ => noFailEnv) st now) r.id :=
    notifiedAt_loop_sets r.id (due_unnotified st now) st hmemid
  have hsub : List.Sublist ((due_unnotified st now).map Reminder.id)
      (st.map Reminder.id) :=
    (List.filter_sublist st).map Reminder.id
  have hnd : ((due_unnotified st now).map Reminder.id).Nodup :=
    List.Nodup.sublist hsub hnodup
  exact ⟨hset, List.count_eq_one_of_mem hnd hmemid,
    fun ops hf => notifiedAt_ops r.id ops _ hf hset,
    not_mem_dispatch_of_notified _ r.id now2 hset⟩

/-- C3 witness: on the one-row store the due reminder with id 1 is
notified by one cycle, dispatched exactly once, stays notified, and is
not dispatched by a later cycle. -/
theorem C3_witness :
    notifiedAt (monitor_cycle (fun _ => noFailEnv) oneStore
      "2024-01-02 10:00:30") 1 ∧
    (cycle_dispatch_order oneStore "2024-01-02 10:00:30").count 1 = 1 ∧
    (∀ ops : List StoreOp, (∀ op ∈ ops, op.freshFor 1) →
      notifiedAt (ops.foldl (fun s op => op.apply s)
        (monitor_cycle (fun _ => noFailEnv) oneStore
          "2024-01-02 10:00:30")) 1) ∧
    1 ∉ cycle_dispatch_order
        (monitor_cycle (fun _ => noFailEnv) oneStore "2024-01-02 10:00:30")
        "2024-01-02 10:01:00" :=
  C3_notified_exactly_once oneStore
    { id := 1, medicine_name := "Aspirin",
      due_datetime := "2024-01-02 10:00:00", notified := false }
    "2024-01-02 10:00:30" "2024-01-02 10:01:00"
    (by decide) rfl (by decide) (by decide)
